import Mathlib

/-!
Verification of the interview-session orchestration engine
(`int-backend`): a shallow embedding of the Speech Timing Engine
(`app/services/ai_avatar/core/tts_service.py`), the Session Registry
(`app/services/ai_avatar/core/session_manager.py`), the question services
(`services/ai_avatar/core/question_service.py`,
`services/ai_avatar/mock/question_service.py`) and the HTTP orchestration
routes (`services/ai_avatar/api/routes.py`).

Modelling conventions:
* Python floats are modelled as exact rationals (`ℚ`); Python `round(x, 3)`
  is modelled as round-half-to-even at three decimal digits (`round3`).
* Python strings are modelled as `String`; where the code iterates over the
  characters of a text (the word tokenizer), the text is modelled as its
  character sequence (`List Char`).
* Python dicts used as keyed stores are modelled as association lists with
  first-match lookup; in-place mutation becomes explicit state passing.
* External I/O (the remote question API, the voice provider, the avatar
  provider, clocks and id generators) is injected as explicit parameters
  describing the outcome of each call; `Except` models raised exceptions.
-/

namespace IntBackend

/-! ### Rounding: Python `round(x, 3)` on exact rationals -/

/-- The floor of a rational, written so that the kernel can evaluate it on
concrete inputs (`⌊q⌋ = q.num / q.den`, see `Rat.floor_def`). -/
def floorQ (q : ℚ) : ℤ := q.num / q.den

theorem floorQ_eq_floor (q : ℚ) : floorQ q = ⌊q⌋ := Rat.floor_def.symm

/-- Round a rational to the nearest integer, ties to even
(the rounding used by Python `round`). -/
def roundHalfEven (q : ℚ) : ℤ :=
  if q - (floorQ q : ℚ) < 1/2 then floorQ q
  else if 1/2 < q - (floorQ q : ℚ) then floorQ q + 1
  else if floorQ q % 2 = 0 then floorQ q else floorQ q + 1

/-- Python `round(x, 3)`: round to three decimal digits, ties to even. -/
def round3 (q : ℚ) : ℚ := (roundHalfEven (1000 * q) : ℚ) / 1000

theorem roundHalfEven_intCast (n : ℤ) : roundHalfEven (n : ℚ) = n := by
  unfold roundHalfEven
  simp [floorQ_eq_floor, Int.floor_intCast]

theorem abs_roundHalfEven_sub_le (q : ℚ) : |(roundHalfEven q : ℚ) - q| ≤ 1/2 := by
  unfold roundHalfEven
  simp only [floorQ_eq_floor]
  have h0 : (⌊q⌋ : ℚ) ≤ q := Int.floor_le q
  have h1 : q < (⌊q⌋ : ℚ) + 1 := Int.lt_floor_add_one q
  split_ifs with hlt hgt hev <;>
    · rw [abs_le]; push_cast; constructor <;> linarith

theorem roundHalfEven_eq_of_near (n : ℤ) (q : ℚ)
    (h1 : (n : ℚ) - 1/2 < q) (h2 : q < (n : ℚ) + 1/2) :
    roundHalfEven q = n := by
  unfold roundHalfEven
  simp only [floorQ_eq_floor]
  rcases le_or_lt (n : ℚ) q with hle | hlt
  · have hf : ⌊q⌋ = n := by
      rw [Int.floor_eq_iff]
      constructor
      · exact_mod_cast hle
      · linarith
    rw [hf]
    have : q - (n : ℚ) < 1/2 := by linarith
    simp only [this, if_pos]
  · have hf : ⌊q⌋ = n - 1 := by
      rw [Int.floor_eq_iff]
      constructor
      · push_cast; linarith
      · push_cast; linarith
    rw [hf]
    have hr : ¬ (q - ((n - 1 : ℤ) : ℚ) < 1/2) := by push_cast; push_neg; linarith
    have hr2 : 1/2 < q - ((n - 1 : ℤ) : ℚ) := by push_cast; linarith
    simp only [hr, if_neg, hr2, if_pos, not_false_iff]
    omega

theorem roundHalfEven_add_even (q : ℚ) (k : ℤ) :
    roundHalfEven (q + ((2 * k : ℤ) : ℚ)) = roundHalfEven q + 2 * k := by
  unfold roundHalfEven
  simp only [floorQ_eq_floor]
  rw [Int.floor_add_int]
  have hfr : q + ((2 * k : ℤ) : ℚ) - ((⌊q⌋ + 2 * k : ℤ) : ℚ) = q - (⌊q⌋ : ℚ) := by
    push_cast; ring
  rw [hfr]
  have hev : (⌊q⌋ + 2 * k) % 2 = 0 ↔ ⌊q⌋ % 2 = 0 := by omega
  by_cases h1 : q - (⌊q⌋ : ℚ) < 1/2
  · rw [if_pos h1, if_pos h1]
  · rw [if_neg h1, if_neg h1]
    by_cases h2 : 1/2 < q - (⌊q⌋ : ℚ)
    · rw [if_pos h2, if_pos h2]; ring
    · rw [if_neg h2, if_neg h2]
      by_cases h3 : ⌊q⌋ % 2 = 0
      · rw [if_pos (hev.mpr h3), if_pos h3]
      · rw [if_neg (fun hc => h3 (hev.mp hc)), if_neg h3]; ring

theorem floor_le_roundHalfEven (q : ℚ) : ⌊q⌋ ≤ roundHalfEven q := by
  unfold roundHalfEven
  simp only [floorQ_eq_floor]
  split_ifs <;> omega

theorem roundHalfEven_le_floor_add_one (q : ℚ) : roundHalfEven q ≤ ⌊q⌋ + 1 := by
  unfold roundHalfEven
  simp only [floorQ_eq_floor]
  split_ifs <;> omega

theorem roundHalfEven_mono {q r : ℚ} (h : q ≤ r) :
    roundHalfEven q ≤ roundHalfEven r := by
  rcases lt_or_eq_of_le (Int.floor_le_floor h) with hf | hf
  · calc roundHalfEven q ≤ ⌊q⌋ + 1 := roundHalfEven_le_floor_add_one q
      _ ≤ ⌊r⌋ := by omega
      _ ≤ roundHalfEven r := floor_le_roundHalfEven r
  · have hfrac : q - (⌊q⌋ : ℚ) ≤ r - (⌊r⌋ : ℚ) := by
      rw [← hf]; linarith
    unfold roundHalfEven
    simp only [floorQ_eq_floor]
    rw [← hf]
    split_ifs <;> first | omega | linarith

theorem roundHalfEven_nonneg {q : ℚ} (h : 0 ≤ q) : 0 ≤ roundHalfEven q := by
  have := floor_le_roundHalfEven q
  have : (0 : ℤ) ≤ ⌊q⌋ := Int.floor_nonneg.mpr h
  omega

theorem round3_mono {q r : ℚ} (h : q ≤ r) : round3 q ≤ round3 r := by
  unfold round3
  have := roundHalfEven_mono (q := 1000 * q) (r := 1000 * r) (by linarith)
  have hc : (roundHalfEven (1000 * q) : ℚ) ≤ (roundHalfEven (1000 * r) : ℚ) := by
    exact_mod_cast this
  linarith

theorem round3_nonneg {q : ℚ} (h : 0 ≤ q) : 0 ≤ round3 q := by
  unfold round3
  have := roundHalfEven_nonneg (q := 1000 * q) (by linarith)
  have hc : (0 : ℚ) ≤ (roundHalfEven (1000 * q) : ℚ) := by exact_mod_cast this
  linarith

theorem round3_zero : round3 0 = 0 := by
  have h := roundHalfEven_intCast 0
  unfold round3
  norm_num
  simpa using h

/-- A rational that is an even number of thousandths (every pause bonus of the
timing engine is: `0.2 = 200/1000`, `0.1 = 100/1000`). -/
def EvenMil (b : ℚ) : Prop := ∃ k : ℤ, b = 2 * k / 1000

theorem EvenMil.zero : EvenMil 0 := ⟨0, by norm_num⟩

theorem EvenMil.add {a b : ℚ} (ha : EvenMil a) (hb : EvenMil b) : EvenMil (a + b) := by
  rcases ha with ⟨j, hj⟩
  rcases hb with ⟨k, hk⟩
  exact ⟨j + k, by rw [hj, hk]; push_cast; ring⟩

theorem round3_add_evenMil {b : ℚ} (q : ℚ) (hb : EvenMil b) :
    round3 (q + b) = round3 q + b := by
  rcases hb with ⟨k, hk⟩
  unfold round3
  have h1 : 1000 * (q + b) = 1000 * q + ((2 * k : ℤ) : ℚ) := by
    rw [hk]; push_cast; ring
  rw [h1, roundHalfEven_add_even]
  push_cast
  rw [hk]
  ring

/-- Key rounding fact behind the normalization step of `_estimate_word_timings`:
rescaling the (already rounded) final cumulative time `round3 (D + B)` by
`D / (D + B)` and rounding again lands exactly on `round3 D`, whenever the
pause-bonus total `B` is a nonnegative even number of thousandths. -/
theorem round3_scale (D B : ℚ) (hD : 0 < D) (hB : 0 ≤ B) (hEB : EvenMil B) :
    round3 (round3 (D + B) * (D / (D + B))) = round3 D := by
  have hc : 0 < D + B := by linarith
  have hc' : D + B ≠ 0 := ne_of_gt hc
  have h1 : round3 (D + B) = round3 D + B := round3_add_evenMil D hEB
  have he : |(roundHalfEven (1000 * D) : ℚ) - 1000 * D| ≤ 1/2 :=
    abs_roundHalfEven_sub_le (1000 * D)
  have hr3 : round3 D = ((roundHalfEven (1000 * D) : ℚ)) / 1000 := rfl
  have hkey : 1000 * (round3 (D + B) * (D / (D + B)))
      = (roundHalfEven (1000 * D) : ℚ)
        + (1000 * D - (roundHalfEven (1000 * D) : ℚ)) * B / (D + B) := by
    rw [h1, hr3]
    field_simp
    ring
  have hfrac_lt : B / (D + B) < 1 := by rw [div_lt_one hc]; linarith
  have hfrac_nonneg : 0 ≤ B / (D + B) := by positivity
  have hpert : |(1000 * D - (roundHalfEven (1000 * D) : ℚ)) * B / (D + B)| < 1/2 := by
    rw [mul_div_assoc, abs_mul, abs_of_nonneg hfrac_nonneg]
    have h2 : |1000 * D - (roundHalfEven (1000 * D) : ℚ)| ≤ 1/2 := by
      rw [abs_sub_comm]; exact he
    calc |1000 * D - (roundHalfEven (1000 * D) : ℚ)| * (B / (D + B))
        ≤ (1/2) * (B / (D + B)) := mul_le_mul_of_nonneg_right h2 hfrac_nonneg
      _ < (1/2) * 1 := by
          apply mul_lt_mul_of_pos_left hfrac_lt; norm_num
      _ = 1/2 := by ring
  have hnear := abs_lt.mp hpert
  have hfinal : roundHalfEven (1000 * (round3 (D + B) * (D / (D + B))))
      = roundHalfEven (1000 * D) := by
    rw [hkey]
    apply roundHalfEven_eq_of_near
    · linarith [hnear.1]
    · linarith [hnear.2]
  show (roundHalfEven (1000 * (round3 (D + B) * (D / (D + B)))) : ℚ) / 1000 = round3 D
  rw [hfinal, hr3]

/-! ### Speech Timing Engine (`tts_service.py`) -/

/-- `WordTiming` from `tts_service.py`: timing information for a single word.
The word is modelled as its character sequence; `end_` models the Python
field `end`. -/
structure WordTiming where
  word : List Char
  start : ℚ
  end_ : ℚ
  deriving DecidableEq, Repr

/-- Accumulator-based tokenizer realizing Python `re.findall(r'\S+', text)`:
maximal runs of non-whitespace characters, in input order. `acc` holds the
(reversed) characters of the token currently being read. -/
def tokAux : List Char → List Char → List (List Char)
  | [], acc => if acc = [] then [] else [acc.reverse]
  | c :: cs, acc =>
    if c.isWhitespace then
      if acc = [] then tokAux cs [] else acc.reverse :: tokAux cs []
    else tokAux cs (c :: acc)

/-- `words = re.findall(r'\S+', text)` in `_estimate_word_timings`. -/
def findall_nonspace (text : List Char) : List (List Char) := tokAux text []

theorem tokAux_ne_nil : ∀ (l acc : List Char), ∀ w ∈ tokAux l acc, w ≠ [] := by
  intro l
  induction l with
  | nil =>
    intro acc w hw
    simp only [tokAux] at hw
    split at hw
    · simp at hw
    · next hacc =>
      simp only [List.mem_singleton] at hw
      subst hw
      simpa using hacc
  | cons c cs ih =>
    intro acc w hw
    simp only [tokAux] at hw
    split at hw
    · split at hw
      · exact ih [] w hw
      · next hacc =>
        rcases List.mem_cons.mp hw with h | h
        · subst h; simpa using hacc
        · exact ih [] w h
    · exact ih (c :: acc) w hw

theorem findall_nonspace_ne_nil (text : List Char) :
    ∀ w ∈ findall_nonspace text, w ≠ [] :=
  tokAux_ne_nil text []

/-- The pause bonus added to a word's duration in `_estimate_word_timings`:
Python adds `0.2` when `word[-1] in '.!?'` and `0.1` when `word[-1] in ',;:'`. -/
def pause_bonus (word : List Char) : ℚ :=
  if word.getLastD ' ' = '.' ∨ word.getLastD ' ' = '!' ∨ word.getLastD ' ' = '?' then
    1/5
  else if word.getLastD ' ' = ',' ∨ word.getLastD ' ' = ';' ∨ word.getLastD ' ' = ':' then
    1/10
  else 0

/-- `word_duration` of one loop iteration of `_estimate_word_timings`:
`(len(word) / total_chars) * total_duration` plus the pause bonus. -/
def word_duration (total_chars : ℕ) (total_duration : ℚ) (word : List Char) : ℚ :=
  ((word.length : ℚ) / (total_chars : ℚ)) * total_duration + pause_bonus word

/-- The `for word in words` loop of `_estimate_word_timings`: appends
`WordTiming(word, round(current_time, 3), round(current_time + word_duration, 3))`
for each word and advances `current_time` (unrounded); returns the built list
and the final `current_time`. -/
def estimateLoop (total_chars : ℕ) (total_duration : ℚ) :
    List (List Char) → ℚ → List WordTiming × ℚ
  | [], current_time => ([], current_time)
  | w :: ws, current_time =>
    let wd := word_duration total_chars total_duration w
    let rest := estimateLoop total_chars total_duration ws (current_time + wd)
    (⟨w, round3 current_time, round3 (current_time + wd)⟩ :: rest.1, rest.2)

/-- `total_chars = sum(len(w) for w in words)` in `_estimate_word_timings`. -/
def est_tc (text : List Char) : ℕ := ((findall_nonspace text).map List.length).sum

/-- The word-timing list and final `current_time` produced by the loop of
`_estimate_word_timings`, starting from `current_time = 0.0`. -/
def est_run (text : List Char) (total_duration : ℚ) : List WordTiming × ℚ :=
  estimateLoop (est_tc text) total_duration (findall_nonspace text) 0

/-- `TTSService._estimate_word_timings(text, total_duration)`: tokenize,
distribute the duration proportionally to word length with pause bonuses,
then — provided the list is non-empty and `current_time > 0` — rescale every
(rounded) start/end by `scale = total_duration / current_time` and round
again. -/
def _estimate_word_timings (text : List Char) (total_duration : ℚ) : List WordTiming :=
  if findall_nonspace text = [] then []
  else if est_tc text = 0 then []
  else if (est_run text total_duration).1 ≠ [] ∧ 0 < (est_run text total_duration).2 then
    (est_run text total_duration).1.map (fun wt =>
      ⟨wt.word, round3 (wt.start * (total_duration / (est_run text total_duration).2)),
        round3 (wt.end_ * (total_duration / (est_run text total_duration).2))⟩)
  else (est_run text total_duration).1

/-- `TTSResult` of `generate_speech`, keeping the fields the claims are about;
the audio payload is modelled by its byte length. -/
structure TTSResult where
  audio_len : ℕ
  word_timings : List WordTiming
  duration : ℚ
  deriving DecidableEq, Repr

/-- `generate_speech`: the provider total duration is the sentence-boundary
duration when positive, otherwise `len(audio_bytes) / 16000`. -/
def generate_speech_total_duration (sentence_duration : ℚ) (audio_len : ℕ) : ℚ :=
  if 0 < sentence_duration then sentence_duration else (audio_len : ℚ) / 16000

/-- `TTSService.generate_speech(text)`, with the voice provider's outputs
(concatenated audio byte length and sentence-boundary duration) injected as
parameters: computes the total duration, estimates word timings, and reports
`duration = round(total_duration, 3)`. -/
def generate_speech (text : List Char) (sentence_duration : ℚ) (audio_len : ℕ) :
    TTSResult :=
  ⟨audio_len,
   _estimate_word_timings text (generate_speech_total_duration sentence_duration audio_len),
   round3 (generate_speech_total_duration sentence_duration audio_len)⟩

theorem estimateLoop_snd (tc : ℕ) (D : ℚ) :
    ∀ (ws : List (List Char)) (t : ℚ),
      (estimateLoop tc D ws t).2 = t + (ws.map (word_duration tc D)).sum := by
  intro ws
  induction ws with
  | nil => intro t; simp [estimateLoop]
  | cons w ws ih =>
    intro t
    simp only [estimateLoop, List.map_cons, List.sum_cons]
    rw [ih]
    ring

theorem estimateLoop_words (tc : ℕ) (D : ℚ) :
    ∀ (ws : List (List Char)) (t : ℚ),
      (estimateLoop tc D ws t).1.map WordTiming.word = ws := by
  intro ws
  induction ws with
  | nil => intro t; simp [estimateLoop]
  | cons w ws ih =>
    intro t
    simp only [estimateLoop, List.map_cons]
    rw [ih]

theorem estimateLoop_getLast? (tc : ℕ) (D : ℚ) :
    ∀ (ws : List (List Char)) (t : ℚ), ws ≠ [] →
      ∃ wt, (estimateLoop tc D ws t).1.getLast? = some wt ∧
        wt.end_ = round3 ((estimateLoop tc D ws t).2) := by
  intro ws
  induction ws with
  | nil => intro t h; exact absurd rfl h
  | cons w ws ih =>
    intro t _
    by_cases hws : ws = []
    · subst hws
      exact ⟨⟨w, round3 t, round3 (t + word_duration tc D w)⟩, by simp [estimateLoop], rfl⟩
    · obtain ⟨wt, hlast, hend⟩ := ih (t + word_duration tc D w) hws
      refine ⟨wt, ?_, ?_⟩
      · have hne : (estimateLoop tc D ws (t + word_duration tc D w)).1 ≠ [] := by
          intro hnil
          have := estimateLoop_words tc D ws (t + word_duration tc D w)
          rw [hnil] at this
          exact hws this.symm
        simp only [estimateLoop]
        rw [← hlast]
        cases hcase : (estimateLoop tc D ws (t + word_duration tc D w)).1 with
        | nil => exact absurd hcase hne
        | cons a l => rw [List.getLast?_cons_cons]
      · simpa only [estimateLoop] using hend

theorem pause_bonus_evenMil (w : List Char) : EvenMil (pause_bonus w) := by
  unfold pause_bonus
  split_ifs
  · exact ⟨100, by norm_num⟩
  · exact ⟨50, by norm_num⟩
  · exact ⟨0, by norm_num⟩

theorem pause_bonus_nonneg (w : List Char) : 0 ≤ pause_bonus w := by
  unfold pause_bonus
  split_ifs <;> norm_num

theorem bonus_sum_evenMil (ws : List (List Char)) :
    EvenMil ((ws.map pause_bonus).sum) := by
  induction ws with
  | nil => simpa using EvenMil.zero
  | cons w ws ih =>
    simp only [List.map_cons, List.sum_cons]
    exact (pause_bonus_evenMil w).add ih

theorem bonus_sum_nonneg (ws : List (List Char)) : 0 ≤ (ws.map pause_bonus).sum := by
  induction ws with
  | nil => simp
  | cons w ws ih =>
    simp only [List.map_cons, List.sum_cons]
    have := pause_bonus_nonneg w
    linarith

theorem base_sum (tc : ℕ) (D : ℚ) :
    ∀ ws : List (List Char),
      (ws.map fun w => ((w.length : ℚ) / (tc : ℚ)) * D).sum
        = (((ws.map List.length).sum : ℕ) : ℚ) * (D / (tc : ℚ)) := by
  intro ws
  induction ws with
  | nil => simp
  | cons w ws ih =>
    simp only [List.map_cons, List.sum_cons]
    rw [ih]
    push_cast
    ring

/-- When `total_chars` really is the total character count (and nonzero), the
unrounded cumulative time after the loop is exactly the total duration plus
the pause-bonus total. -/
theorem duration_sum (tc : ℕ) (D : ℚ) (ws : List (List Char))
    (htc : (ws.map List.length).sum = tc) (htc0 : tc ≠ 0) :
    (ws.map (word_duration tc D)).sum = D + (ws.map pause_bonus).sum := by
  have hsplit : ∀ l : List (List Char),
      (l.map (word_duration tc D)).sum
        = (l.map fun w => ((w.length : ℚ) / (tc : ℚ)) * D).sum + (l.map pause_bonus).sum := by
    intro l
    induction l with
    | nil => simp
    | cons w l ih =>
      simp only [List.map_cons, List.sum_cons, word_duration]
      rw [ih]
      ring
  rw [hsplit, base_sum, htc]
  have htcq : (tc : ℚ) ≠ 0 := Nat.cast_ne_zero.mpr htc0
  rw [mul_div_assoc']
  rw [mul_comm, mul_div_assoc, div_self htcq, mul_one]

theorem length_le_sum_lengths :
    ∀ ws : List (List Char), (∀ w ∈ ws, w ≠ []) →
      ws.length ≤ (ws.map List.length).sum := by
  intro ws
  induction ws with
  | nil => simp
  | cons w ws ih =>
    intro h
    simp only [List.map_cons, List.sum_cons, List.length_cons]
    have h1 : 1 ≤ w.length := by
      have := h w (List.mem_cons_self w ws)
      cases w with
      | nil => exact absurd rfl this
      | cons c cs => simp
    have h2 := ih (fun x hx => h x (List.mem_cons_of_mem w hx))
    omega

theorem word_duration_nonneg (tc : ℕ) {D : ℚ} (hD : 0 ≤ D) (w : List Char) :
    0 ≤ word_duration tc D w := by
  unfold word_duration
  have h1 : 0 ≤ ((w.length : ℚ) / (tc : ℚ)) * D :=
    mul_nonneg (div_nonneg (by positivity) (by positivity)) hD
  have h2 := pause_bonus_nonneg w
  linarith

/-- Invariant of the timing loop: in the produced (pre-normalization) list,
every start is at least `round3 t`, every entry has `start ≤ end`, and the
end times form a non-decreasing chain. -/
theorem estimateLoop_invariant (tc : ℕ) {D : ℚ} (hD : 0 ≤ D) :
    ∀ (ws : List (List Char)) (t : ℚ),
      (∀ wt ∈ (estimateLoop tc D ws t).1,
        round3 t ≤ wt.start ∧ wt.start ≤ wt.end_) ∧
      List.Chain' (fun a b => a.end_ ≤ b.end_) (estimateLoop tc D ws t).1 := by
  intro ws
  induction ws with
  | nil =>
    intro t
    constructor
    · intro wt hwt; simp [estimateLoop] at hwt
    · simp [estimateLoop]
  | cons w ws ih =>
    intro t
    have hwd := word_duration_nonneg tc hD w
    obtain ⟨ihmem, ihchain⟩ := ih (t + word_duration tc D w)
    constructor
    · intro wt hwt
      simp only [estimateLoop, List.mem_cons] at hwt
      rcases hwt with rfl | hwt
      · exact ⟨le_refl _, round3_mono (by linarith)⟩
      · obtain ⟨h1, h2⟩ := ihmem wt hwt
        exact ⟨le_trans (round3_mono (by linarith)) h1, h2⟩
    · simp only [estimateLoop]
      rw [List.chain'_cons']
      constructor
      · intro b hb
        obtain ⟨h1, h2⟩ := ihmem b (List.mem_of_mem_head? hb)
        exact le_trans h1 h2
      · exact ihchain

/-- Telescoping of the normalized durations: adjacent entries of the loop
output share the rounding point `round3` of the cumulative time, so the sum
of `round3 (end * s) - round3 (start * s)` collapses. -/
theorem estimateLoop_telescope (tc : ℕ) (D s : ℚ) :
    ∀ (ws : List (List Char)) (t : ℚ),
      ((estimateLoop tc D ws t).1.map
        (fun wt => round3 (wt.end_ * s) - round3 (wt.start * s))).sum
      = round3 (round3 ((estimateLoop tc D ws t).2) * s) - round3 (round3 t * s) := by
  intro ws
  induction ws with
  | nil => intro t; simp [estimateLoop]
  | cons w ws ih =>
    intro t
    simp only [estimateLoop, List.map_cons, List.sum_cons]
    rw [ih]
    ring

theorem est_tc_ne_zero {text : List Char} (hw : findall_nonspace text ≠ []) :
    est_tc text ≠ 0 := by
  have hne := findall_nonspace_ne_nil text
  have hlen := length_le_sum_lengths (findall_nonspace text) hne
  have : 1 ≤ (findall_nonspace text).length := by
    cases hcase : findall_nonspace text with
    | nil => exact absurd hcase hw
    | cons a l => simp
  unfold est_tc
  omega

theorem est_run_snd {text : List Char} (D : ℚ) (hw : findall_nonspace text ≠ []) :
    (est_run text D).2 = D + ((findall_nonspace text).map pause_bonus).sum := by
  unfold est_run
  rw [estimateLoop_snd,
    duration_sum (est_tc text) D (findall_nonspace text) rfl (est_tc_ne_zero hw)]
  ring

theorem est_run_fst_ne_nil {text : List Char} (D : ℚ)
    (hw : findall_nonspace text ≠ []) : (est_run text D).1 ≠ [] := by
  intro h
  have := estimateLoop_words (est_tc text) D (findall_nonspace text) 0
  unfold est_run at h
  rw [h] at this
  exact hw this.symm

/-- With at least one word and a positive duration, `_estimate_word_timings`
takes the normalization branch. -/
theorem estimate_norm_form {text : List Char} {D : ℚ}
    (hw : findall_nonspace text ≠ []) (hD : 0 < D) :
    _estimate_word_timings text D =
      (est_run text D).1.map (fun wt =>
        ⟨wt.word, round3 (wt.start * (D / (est_run text D).2)),
          round3 (wt.end_ * (D / (est_run text D).2))⟩) := by
  have hB := bonus_sum_nonneg (findall_nonspace text)
  have hpos : 0 < (est_run text D).2 := by
    rw [est_run_snd D hw]; linarith
  unfold _estimate_word_timings
  rw [if_neg hw, if_neg (est_tc_ne_zero hw),
    if_pos ⟨est_run_fst_ne_nil D hw, hpos⟩]

theorem map_getLast? {α β : Type} (f : α → β) :
    ∀ l : List α, (l.map f).getLast? = (l.getLast?).map f := by
  intro l
  induction l with
  | nil => rfl
  | cons a l ih =>
    cases l with
    | nil => rfl
    | cons b m =>
      simp only [List.map_cons] at ih ⊢
      rw [List.getLast?_cons_cons, List.getLast?_cons_cons, ih]

/-- C1: for every text containing at least one whitespace-delimited word and
every total duration strictly greater than zero, `_estimate_word_timings`
returns a non-empty sequence whose last element's end time equals the
reported total duration `round3 total_duration` after normalization. -/
theorem C1_last_end_equals_reported (text : List Char) (D : ℚ)
    (hw : findall_nonspace text ≠ []) (hD : 0 < D) :
    _estimate_word_timings text D ≠ [] ∧
      ∃ wt, (_estimate_word_timings text D).getLast? = some wt ∧
        wt.end_ = round3 D := by
  have hform := estimate_norm_form hw hD
  have hne := est_run_fst_ne_nil D hw
  obtain ⟨wt0, hlast0, hend0⟩ :
      ∃ wt, (est_run text D).1.getLast? = some wt ∧
        wt.end_ = round3 ((est_run text D).2) :=
    estimateLoop_getLast? (est_tc text) D (findall_nonspace text) 0 hw
  constructor
  · rw [hform]
    intro hmapnil
    rw [List.map_eq_nil_iff] at hmapnil
    exact hne hmapnil
  · rw [hform, map_getLast?, hlast0]
    refine ⟨_, rfl, ?_⟩
    show round3 (wt0.end_ * (D / (est_run text D).2)) = round3 D
    rw [hend0, est_run_snd D hw]
    exact round3_scale D _ hD (bonus_sum_nonneg _) (bonus_sum_evenMil _)

theorem C1_last_end_equals_reported_witness :
    findall_nonspace ['H','e','l','l','o',' ','w','o','r','l','d','.'] ≠ [] ∧
    (0 : ℚ) < 1 ∧
    (_estimate_word_timings ['H','e','l','l','o',' ','w','o','r','l','d','.'] 1 ≠ [] ∧
      ∃ wt, (_estimate_word_timings
          ['H','e','l','l','o',' ','w','o','r','l','d','.'] 1).getLast? = some wt ∧
        wt.end_ = round3 1) :=
  ⟨by decide, by norm_num,
    C1_last_end_equals_reported _ 1 (by decide) (by norm_num)⟩

/-- C5 (as frozen) is refuted by a whitespace-only — yet non-empty — text:
for `text = " "` and total duration `1`, the timing sequence is empty, so the
sum of word durations is `0` while the reported duration is `round3 1 = 1`,
off by far more than 1 ms. -/
theorem C5_counterexample_whitespace_text :
    ([' '] : List Char) ≠ [] ∧ (0 : ℚ) < 1 ∧
    ¬ |((_estimate_word_timings [' '] 1).map
        (fun wt => wt.end_ - wt.start)).sum - round3 1| ≤ 1/1000 := by
  refine ⟨by simp, by norm_num, ?_⟩
  have h0 : _estimate_word_timings [' '] 1 = [] := by
    unfold _estimate_word_timings
    rw [if_pos (by decide : findall_nonspace [' '] = [])]
  have h1 : round3 (1 : ℚ) = 1 := by with_unfolding_all decide
  rw [h0, h1]
  simp only [List.map_nil, List.sum_nil, zero_sub, abs_neg, abs_one]
  norm_num

/-- C5 (amended): for every text containing at least one whitespace-delimited
word and every total duration strictly greater than zero, the sum of
normalized word durations differs from the reported total duration
`round3 total_duration` by at most 1 ms (in fact it equals it exactly). -/
theorem C5_duration_sum_within_1ms (text : List Char) (D : ℚ)
    (hw : findall_nonspace text ≠ []) (hD : 0 < D) :
    |((_estimate_word_timings text D).map
        (fun wt => wt.end_ - wt.start)).sum - round3 D| ≤ 1/1000 := by
  have hform := estimate_norm_form hw hD
  have hsnd := est_run_snd D hw
  have htele : ((est_run text D).1.map
      (fun wt => round3 (wt.end_ * (D / (est_run text D).2))
        - round3 (wt.start * (D / (est_run text D).2)))).sum
      = round3 (round3 ((est_run text D).2) * (D / (est_run text D).2))
        - round3 (round3 0 * (D / (est_run text D).2)) :=
    estimateLoop_telescope (est_tc text) D (D / (est_run text D).2)
      (findall_nonspace text) 0
  rw [hform, List.map_map]
  have hcomp : ((fun wt : WordTiming => wt.end_ - wt.start) ∘
      (fun wt : WordTiming => (⟨wt.word, round3 (wt.start * (D / (est_run text D).2)),
        round3 (wt.end_ * (D / (est_run text D).2))⟩ : WordTiming)))
      = fun wt : WordTiming => round3 (wt.end_ * (D / (est_run text D).2))
        - round3 (wt.start * (D / (est_run text D).2)) := rfl
  rw [hcomp, htele, round3_zero, zero_mul, round3_zero, hsnd,
    round3_scale D _ hD (bonus_sum_nonneg _) (bonus_sum_evenMil _)]
  simp

theorem C5_duration_sum_within_1ms_witness :
    findall_nonspace ['H','e','l','l','o',' ','w','o','r','l','d','.'] ≠ [] ∧
    (0 : ℚ) < 1 ∧
    |((_estimate_word_timings ['H','e','l','l','o',' ','w','o','r','l','d','.'] 1).map
        (fun wt => wt.end_ - wt.start)).sum - round3 1| ≤ 1/1000 :=
  ⟨by decide, by norm_num,
    C5_duration_sum_within_1ms _ 1 (by decide) (by norm_num)⟩

/-- C6: for every text and every non-negative total duration, every produced
timing satisfies `0 ≤ start`, `start ≤ end` and `0 ≤ end`, and end times are
non-decreasing across the sequence (`word[i].end ≤ word[i+1].end`). -/
theorem C6_timings_monotone_nonneg (text : List Char) (D : ℚ) (hD : 0 ≤ D) :
    (∀ wt ∈ _estimate_word_timings text D,
      0 ≤ wt.start ∧ wt.start ≤ wt.end_ ∧ 0 ≤ wt.end_) ∧
    List.Chain' (fun a b => a.end_ ≤ b.end_) (_estimate_word_timings text D) := by
  obtain ⟨hmem, hchain⟩ :=
    estimateLoop_invariant (est_tc text) hD (findall_nonspace text) 0
  rw [round3_zero] at hmem
  have hmem' : ∀ wt ∈ (est_run text D).1,
      0 ≤ wt.start ∧ wt.start ≤ wt.end_ := hmem
  have hchain' : List.Chain' (fun a b => a.end_ ≤ b.end_) (est_run text D).1 := hchain
  unfold _estimate_word_timings
  split_ifs with h1 h2 h3
  · exact ⟨by intro wt hwt; simp at hwt, by simp⟩
  · exact ⟨by intro wt hwt; simp at hwt, by simp⟩
  · have hs : 0 ≤ D / (est_run text D).2 := div_nonneg hD (le_of_lt h3.2)
    constructor
    · intro wt hwt
      rw [List.mem_map] at hwt
      obtain ⟨a, ha, rfl⟩ := hwt
      obtain ⟨ha1, ha2⟩ := hmem' a ha
      exact ⟨round3_nonneg (mul_nonneg ha1 hs),
        round3_mono (mul_le_mul_of_nonneg_right ha2 hs),
        round3_nonneg (mul_nonneg (le_trans ha1 ha2) hs)⟩
    · rw [List.chain'_map]
      exact List.Chain'.imp
        (fun a b hab => round3_mono (mul_le_mul_of_nonneg_right hab hs)) hchain'
  · constructor
    · intro wt hwt
      obtain ⟨ha1, ha2⟩ := hmem' wt hwt
      exact ⟨ha1, ha2, le_trans ha1 ha2⟩
    · exact hchain'

theorem C6_timings_monotone_nonneg_witness :
    (0 : ℚ) ≤ 1 ∧
    ((∀ wt ∈ _estimate_word_timings ['H','i',' ','a','.'] 1,
      0 ≤ wt.start ∧ wt.start ≤ wt.end_ ∧ 0 ≤ wt.end_) ∧
    List.Chain' (fun a b => a.end_ ≤ b.end_)
      (_estimate_word_timings ['H','i',' ','a','.'] 1)) :=
  ⟨by norm_num, C6_timings_monotone_nonneg _ 1 (by norm_num)⟩

/-- C9: empty or whitespace-only text yields an empty timing sequence for
*every* total duration, and `generate_speech` — with the voice provider
returning no audio and no sentence boundary for such text — reports duration
zero; all the involved functions are total, so no error is raised. -/
theorem C9_empty_text_zero (text : List Char) (hw : findall_nonspace text = []) :
    (∀ D : ℚ, _estimate_word_timings text D = []) ∧
    (generate_speech text 0 0).word_timings = [] ∧
    (generate_speech text 0 0).duration = 0 := by
  have hD : ∀ D : ℚ, _estimate_word_timings text D = [] := by
    intro D
    unfold _estimate_word_timings
    rw [if_pos hw]
  refine ⟨hD, hD _, ?_⟩
  show round3 (generate_speech_total_duration 0 0) = 0
  unfold generate_speech_total_duration
  rw [if_neg (lt_irrefl 0)]
  norm_num [round3_zero]

theorem C9_empty_text_zero_witness :
    findall_nonspace [' '] = [] ∧
    ((∀ D : ℚ, _estimate_word_timings [' '] D = []) ∧
    (generate_speech [' '] 0 0).word_timings = [] ∧
    (generate_speech [' '] 0 0).duration = 0) :=
  ⟨by decide, C9_empty_text_zero [' '] (by decide)⟩

/-- C10: for every text and every total duration, the word fields of the
timing sequence are exactly the maximal whitespace-delimited tokens of the
text (`re.findall(r'\S+', text)`), in input order, one timing per token. -/
theorem C10_words_are_tokens (text : List Char) (D : ℚ) :
    (_estimate_word_timings text D).map WordTiming.word = findall_nonspace text := by
  unfold _estimate_word_timings
  split_ifs with h1 h2 h3
  · rw [h1]; rfl
  · exact absurd h2 (est_tc_ne_zero h1)
  · rw [List.map_map]
    exact estimateLoop_words (est_tc text) D (findall_nonspace text) 0
  · exact estimateLoop_words (est_tc text) D (findall_nonspace text) 0

/-! ### Python dicts as association lists -/

/-- `d.get(k)` / `k in d`: first-match lookup in an association list. -/
def dictGet {α : Type} : List (String × α) → String → Option α
  | [], _ => none
  | (k0, v0) :: rest, k => if k0 = k then some v0 else dictGet rest k

/-- `d[k] = v`: replace the binding of `k`, or append a new one. -/
def dictSet {α : Type} : List (String × α) → String → α → List (String × α)
  | [], k, v => [(k, v)]
  | (k0, v0) :: rest, k, v =>
    if k0 = k then (k0, v) :: rest else (k0, v0) :: dictSet rest k v

/-- `del d[k]`: remove the binding of `k`. -/
def dictErase {α : Type} : List (String × α) → String → List (String × α)
  | [], _ => []
  | (k0, v0) :: rest, k => if k0 = k then rest else (k0, v0) :: dictErase rest k

theorem dictGet_dictSet_self {α : Type} (m : List (String × α)) (k : String) (v : α) :
    dictGet (dictSet m k v) k = some v := by
  induction m with
  | nil => simp [dictGet, dictSet]
  | cons p rest ih =>
    obtain ⟨k0, v0⟩ := p
    by_cases h : k0 = k
    · simp [dictGet, dictSet, h]
    · simp [dictGet, dictSet, h, ih]

/-! ### Session Registry (`session_manager.py`) -/

/-- `SessionState` from `session_manager.py`. -/
inductive SessionState
  | CREATED
  | IN_PROGRESS
  | WAITING_FOR_ANSWER
  | PROCESSING
  | COMPLETED
  | EXPIRED
  deriving DecidableEq, Repr

/-- The `.value` string of a `SessionState`. -/
def session_state_value : SessionState → String
  | .CREATED => "created"
  | .IN_PROGRESS => "in_progress"
  | .WAITING_FOR_ANSWER => "waiting_for_answer"
  | .PROCESSING => "processing"
  | .COMPLETED => "completed"
  | .EXPIRED => "expired"

/-- `AnswerRecord` from `session_manager.py`. -/
structure AnswerRecord where
  question_id : ℤ
  answer_text : String
  timestamp : String
  deriving DecidableEq, Repr

/-- `InterviewSession` from `session_manager.py`. -/
structure InterviewSession where
  session_id : String
  state : SessionState
  created_at : String
  current_question_id : ℤ
  answers : List AnswerRecord
  updated_at : String
  deriving DecidableEq, Repr

/-- The in-memory session dict `SessionManager._sessions`. -/
def SessionStore : Type := List (String × InterviewSession)

instance : DecidableEq SessionStore := by
  unfold SessionStore
  infer_instance

/-- `SessionManager.create_session()`, with the generated id and timestamp
injected (`generate_session_id()` / `get_timestamp()` are external). -/
def create_session (m : SessionStore) (session_id now : String) :
    InterviewSession × SessionStore :=
  let session : InterviewSession :=
    ⟨session_id, .CREATED, now, 0, [], now⟩
  (session, dictSet m session_id session)

/-- `SessionManager.get_session(session_id)`. -/
def get_session (m : SessionStore) (session_id : String) : Option InterviewSession :=
  dictGet m session_id

/-- `SessionManager.update_session_state`: mutates (and returns) the session
when present, returns `None` and leaves the store unchanged otherwise. -/
def update_session_state (m : SessionStore) (session_id : String)
    (state : SessionState) (now : String) : Option InterviewSession × SessionStore :=
  match dictGet m session_id with
  | none => (none, m)
  | some s =>
    let s2 := { s with state := state, updated_at := now }
    (some s2, dictSet m session_id s2)

/-- `SessionManager.set_current_question`. -/
def set_current_question (m : SessionStore) (session_id : String)
    (question_id : ℤ) (now : String) : Option InterviewSession × SessionStore :=
  match dictGet m session_id with
  | none => (none, m)
  | some s =>
    let s2 := { s with current_question_id := question_id, updated_at := now }
    (some s2, dictSet m session_id s2)

/-- `SessionManager.record_answer`: appends an `AnswerRecord` when the session
exists (both `get_timestamp()` reads modelled by `now`). -/
def record_answer (m : SessionStore) (session_id : String)
    (question_id : ℤ) (answer_text : String) (now : String) :
    Option InterviewSession × SessionStore :=
  match dictGet m session_id with
  | none => (none, m)
  | some s =>
    let s2 := { s with
      answers := s.answers ++ [⟨question_id, answer_text, now⟩],
      updated_at := now }
    (some s2, dictSet m session_id s2)

/-- `SessionManager.complete_session`. -/
def complete_session (m : SessionStore) (session_id now : String) :
    Option InterviewSession × SessionStore :=
  update_session_state m session_id .COMPLETED now

/-- `SessionManager.delete_session`. -/
def delete_session (m : SessionStore) (session_id : String) : Bool × SessionStore :=
  if (dictGet m session_id).isSome then (true, dictErase m session_id)
  else (false, m)

/-- The dict returned by `SessionManager.get_session_summary`. -/
structure SessionSummary where
  session_id : String
  state : SessionState
  questions_answered : ℕ
  created_at : String
  completed_at : Option String
  deriving DecidableEq, Repr

/-- `SessionManager.get_session_summary`. -/
def get_session_summary (m : SessionStore) (session_id : String) :
    Option SessionSummary :=
  match dictGet m session_id with
  | none => none
  | some s =>
    some ⟨s.session_id, s.state, s.answers.length, s.created_at,
      if s.state = .COMPLETED then some s.updated_at else none⟩

/-! ### Question services (`core/question_service.py`, `mock/question_service.py`) -/

/-- `QuestionType` (the real service's variant, which adds `GENERAL`). -/
inductive QuestionType
  | INTRODUCTION
  | BEHAVIORAL
  | SITUATIONAL
  | TECHNICAL
  | CLOSING
  | GENERAL
  deriving DecidableEq, Repr

/-- The `.value` string of a `QuestionType`. -/
def question_type_value : QuestionType → String
  | .INTRODUCTION => "introduction"
  | .BEHAVIORAL => "behavioral"
  | .SITUATIONAL => "situational"
  | .TECHNICAL => "technical"
  | .CLOSING => "closing"
  | .GENERAL => "general"

/-- `InterviewQuestion` from `question_service.py`. -/
structure InterviewQuestion where
  id : ℤ
  text : String
  type : QuestionType
  follow_up_hint : Option String := none
  deriving DecidableEq, Repr

/-- `InterviewSessionInfo` from `question_service.py`. -/
structure InterviewSessionInfo where
  session_id : ℤ
  status : String
  user_id : Option String := none
  deriving DecidableEq, Repr

/-- The mutable state of the real `QuestionService`:
`_session_info` and `_questions_asked`. -/
structure QuestionServiceState where
  session_info : List (String × InterviewSessionInfo)
  questions_asked : List (String × ℕ)
  deriving DecidableEq, Repr

/-- `QuestionService.get_real_session_id`. -/
def get_real_session_id (q : QuestionServiceState) (session_id : String) : Option ℤ :=
  (dictGet q.session_info session_id).map InterviewSessionInfo.session_id

/-- Python `needle in haystack` on character lists. -/
def containsSub (hay pat : List Char) : Bool :=
  hay.tails.any (fun t => pat.isPrefixOf t)

/-- `QuestionService._infer_question_type`: keyword heuristics over the
lowercased question text. -/
def _infer_question_type (question_text : String) (is_first_question : Bool) :
    QuestionType :=
  let tl := question_text.data.map Char.toLower
  if is_first_question then .INTRODUCTION
  else if ["tell me about", "describe", "example", "time when"].any
      (fun k => containsSub tl k.data) then .BEHAVIORAL
  else if ["imagine", "if you", "what would you", "how would you"].any
      (fun k => containsSub tl k.data) then .SITUATIONAL
  else if ["explain", "what is", "how does", "define", "algorithm", "code"].any
      (fun k => containsSub tl k.data) then .TECHNICAL
  else .GENERAL

/-- Outcome of the remote `GET /api/theai/gen_ques/{id}` call, injected into
`QuestionService.get_next_question`: a 200 success payload, a 200 with
`success=false`, a 404, or any other status / network failure (which the
method re-raises). -/
inductive QuestionApiOutcome
  | success (question_id : ℤ) (question_text : String)
      (questions_asked : ℕ) (is_first_question : Bool)
  | notSuccess
  | notFound
  | apiError (detail : String)
  deriving DecidableEq, Repr

/-- `QuestionService.get_next_question`: `None` for an untracked session;
on a success payload, records `questions_asked` and returns the question with
an inferred type; `None` on `success=false` or 404; re-raises (`Except.error`)
on any other API error, leaving the service state unchanged. -/
def qs_get_next_question (q : QuestionServiceState) (session_id : String)
    (resp : QuestionApiOutcome) :
    Except String (Option InterviewQuestion) × QuestionServiceState :=
  match get_real_session_id q session_id with
  | none => (.ok none, q)
  | some _ =>
    match resp with
    | .success qid qtext asked first =>
      (.ok (some ⟨qid, qtext, _infer_question_type qtext first, none⟩),
        { q with questions_asked := dictSet q.questions_asked session_id asked })
    | .notSuccess => (.ok none, q)
    | .notFound => (.ok none, q)
    | .apiError d => (.error d, q)

/-- Outcome of the remote `start_interview_session` call, injected into
`QuestionService.start_session`. -/
inductive StartApiOutcome
  | ok (real_session_id : ℤ) (status : String)
  | fail (detail : String)
  deriving DecidableEq, Repr

/-- `QuestionService.start_session`: on success records the session mapping
and zeroes the question count; on any failure raises and changes nothing. -/
def qs_start_session (q : QuestionServiceState) (session_id user_id : String)
    (resp : StartApiOutcome) :
    Except String (InterviewSessionInfo × QuestionServiceState) :=
  match resp with
  | .ok rid st =>
    .ok (⟨rid, st, some user_id⟩,
      { session_info := dictSet q.session_info session_id ⟨rid, st, some user_id⟩,
        questions_asked := dictSet q.questions_asked session_id 0 })
  | .fail d => .error d

/-- `QuestionService.is_interview_complete` is constantly `False`
(completion is inferred from `get_next_question` returning `None`). -/
def qs_is_interview_complete (_q : QuestionServiceState) (_session_id : String) :
    Bool := false

/-- `QuestionService.get_progress`: `(questions_asked.get(sid, 0), 0)`. -/
def qs_get_progress (q : QuestionServiceState) (session_id : String) : ℕ × ℕ :=
  ((dictGet q.questions_asked session_id).getD 0, 0)

/-- `MOCK_QUESTIONS` from `mock/question_service.py`. -/
def MOCK_QUESTIONS : List InterviewQuestion :=
  [⟨1, "Hello! Welcome to this interview. Let's start with a brief introduction. Could you please tell me about yourself and your professional background?",
    .INTRODUCTION, some "Listen for experience level and key skills"⟩,
   ⟨2, "That's great to hear. Now, can you tell me about a challenging project you worked on? What was your role, and how did you handle the challenges?",
    .BEHAVIORAL, some "Look for problem-solving approach"⟩,
   ⟨3, "Excellent. Describe a time when you had to work with a difficult team member. How did you handle the situation, and what was the outcome?",
    .BEHAVIORAL, some "Assess interpersonal skills"⟩,
   ⟨4, "Can you share an example of when you had to learn a new skill or technology quickly? How did you approach the learning process?",
    .BEHAVIORAL, some "Evaluate adaptability and learning agility"⟩,
   ⟨5, "Imagine you're given a project with an unrealistic deadline. How would you handle this situation with your manager and team?",
    .SITUATIONAL, some "Check communication and negotiation skills"⟩,
   ⟨6, "If you discovered a critical bug in production right before a major release, what steps would you take to address it?",
    .SITUATIONAL, some "Assess crisis management and prioritization"⟩,
   ⟨7, "What's your approach to ensuring quality in your work? Can you walk me through your process for reviewing or testing your deliverables?",
    .TECHNICAL, some "Evaluate attention to detail and quality standards"⟩,
   ⟨8, "How do you stay updated with the latest trends and best practices in your field? Can you give a recent example?",
    .TECHNICAL, some "Check continuous learning attitude"⟩,
   ⟨9, "Tell me about a time when you received constructive criticism. How did you respond, and what did you learn from it?",
    .BEHAVIORAL, some "Assess self-awareness and growth mindset"⟩,
   ⟨10, "We're coming to the end of our interview. What questions do you have for me about the role or the company?",
    .CLOSING, some "Final question - wrap up interview"⟩]

/-- The mutable state of `MockQuestionService`: the fixed question list and
the per-session `_current_question_index`. -/
structure MockQuestionServiceState where
  questions : List InterviewQuestion
  current_question_index : List (String × ℕ)
  deriving DecidableEq, Repr

/-- `MockQuestionService.__init__`. -/
def mock_init : MockQuestionServiceState := ⟨MOCK_QUESTIONS, []⟩

/-- `MockQuestionService.start_session`. -/
def mock_start_session (st : MockQuestionServiceState) (session_id : String) :
    MockQuestionServiceState :=
  { st with current_question_index := dictSet st.current_question_index session_id 0 }

/-- `MockQuestionService.get_next_question`: initializes the session index on
first use, returns `None` once the index reaches the question count, otherwise
returns the question at the current index and advances the index by one. -/
def mock_get_next_question (st : MockQuestionServiceState) (session_id : String) :
    Option InterviewQuestion × MockQuestionServiceState :=
  let st1 := if (dictGet st.current_question_index session_id).isSome then st
             else mock_start_session st session_id
  let current_index := (dictGet st1.current_question_index session_id).getD 0
  if st1.questions.length ≤ current_index then (none, st1)
  else (st1.questions.get? current_index,
    { st1 with current_question_index :=
        dictSet st1.current_question_index session_id (current_index + 1) })

/-- `MockQuestionService.get_progress`. -/
def mock_get_progress (st : MockQuestionServiceState) (session_id : String) : ℕ × ℕ :=
  ((dictGet st.current_question_index session_id).getD 0, st.questions.length)

/-- `MockQuestionService.is_interview_complete`. -/
def mock_is_interview_complete (st : MockQuestionServiceState) (session_id : String) :
    Bool :=
  st.questions.length ≤ (dictGet st.current_question_index session_id).getD 0

/-! ### Avatar Video Client (`avatar_service.py`) -/

/-- `DID_PRESENTER_ID` from `avatar_service.py`. -/
def DID_PRESENTER_ID : String := "v2_public_Amber@0zSz8kflCN"

/-- `DID_PRESENTER_IDLE_VIDEO` from `avatar_service.py`. -/
def DID_PRESENTER_IDLE_VIDEO : String :=
  "https://clips-presenters.d-id.com/v2/Amber/0zSz8kflCN/OUM7xZOuD5/idle.mp4"

/-- `DID_PRESENTER_IMAGE` from `avatar_service.py`. -/
def DID_PRESENTER_IMAGE : String :=
  "https://clips-presenters.d-id.com/v2/Amber/0zSz8kflCN/OUM7xZOuD5/image.png"

/-- The configuration of `AvatarService`: its (possibly missing) API key. -/
structure AvatarServiceModel where
  api_key : Option String
  deriving DecidableEq, Repr

/-- `AvatarService.is_configured`: `bool(self.api_key)` — `None` and the
empty string are falsy. -/
def is_configured (a : AvatarServiceModel) : Bool :=
  match a.api_key with
  | none => false
  | some k => !(k == "")

/-- `AvatarResult` from `avatar_service.py` (the fields the routes read). -/
structure AvatarResult where
  success : Bool
  video_url : Option String := none
  error_message : Option String := none
  total_time_ms : ℚ := 0
  deriving DecidableEq, Repr

/-- `AvatarService.get_cached_idle_video` for the default presenter: the
process-wide `_idle_video_cache` first, then the built-in idle asset. -/
def get_cached_idle_video (idle_cache : List (String × String))
    (presenter : String) : Option String :=
  match dictGet idle_cache ("idle_" ++ presenter) with
  | some u => some u
  | none =>
    if presenter = DID_PRESENTER_ID then some DID_PRESENTER_IDLE_VIDEO else none

/-- `AvatarMode` from `avatar_service.py`. -/
inductive AvatarMode
  | VIDEO
  | AUDIO_ONLY
  deriving DecidableEq, Repr

/-- The `.value` string of an `AvatarMode`. -/
def avatar_mode_value : AvatarMode → String
  | .VIDEO => "video"
  | .AUDIO_ONLY => "audio_only"

/-! ### HTTP routes (`api/routes.py`) -/

/-- JSON-like values for the duck-typed response dicts of `routes.py`. -/
inductive JVal
  | jstr (v : String)
  | jint (v : ℤ)
  | jrat (v : ℚ)
  | jbool (v : Bool)
  | jnull
  | jarr (vs : List JVal)
  | jobj (fields : List (String × JVal))

/-- `Optional[str]` rendered into a JSON value. -/
def jopt_str : Option String → JVal
  | none => .jnull
  | some s => .jstr s

/-- The `word_timings` array of a response. -/
def word_timings_json (l : List WordTiming) : JVal :=
  .jarr (l.map fun wt =>
    .jobj [("word", .jstr ⟨wt.word⟩), ("start", .jrat wt.start), ("end", .jrat wt.end_)])

/-- `HTTPException`s raised by the routes (404 / 400 / 500). -/
inductive HttpError
  | notFound (detail : String)
  | badRequest (detail : String)
  | internal (detail : String)
  deriving DecidableEq, Repr

/-- A `SessionSummary` rendered into a JSON value. -/
def summary_json : Option SessionSummary → JVal
  | none => .jnull
  | some s =>
    .jobj [("session_id", .jstr s.session_id),
      ("state", .jstr (session_state_value s.state)),
      ("questions_answered", .jint s.questions_answered),
      ("created_at", .jstr s.created_at),
      ("completed_at", jopt_str s.completed_at)]

/-- `get_interview_complete_response`: completes the session and reports the
registry's recorded answer count. -/
def get_interview_complete_response (m : SessionStore) (session_id now : String) :
    List (String × JVal) × SessionStore :=
  let r := complete_session m session_id now
  let summary := get_session_summary r.2 session_id
  ([("type", .jstr "complete"),
    ("message", .jstr "Congratulations! You have completed the interview."),
    ("questions_answered",
      .jint (match summary with | some s => (s.questions_answered : ℤ) | none => 0)),
    ("session_summary", summary_json summary)], r.2)

/-- `generate_question_response` (HTTP variant) for a provided question (all
three HTTP callers pass `question` explicitly, so the `question=None` re-fetch
branch is never taken over HTTP). The TTS call outcome (sentence duration and
audio length, or a synthesis failure), the idle-video cache and the avatar
call result are injected. Mutates nothing. -/
def generate_question_response (q : QuestionServiceState) (session_id : String)
    (avatar_mode : AvatarMode) (question : InterviewQuestion)
    (include_word_timings : Bool) (tts : Except Unit (ℚ × ℕ))
    (idle_cache : List (String × String)) (avatar_result : AvatarResult) :
    Except HttpError (List (String × JVal)) :=
  match tts with
  | .error _ => .error (.internal "speech synthesis failed")
  | .ok (sd, al) =>
    let tts_result := generate_speech question.text.data sd al
    let prog := qs_get_progress q session_id
    let idle_video_url := get_cached_idle_video idle_cache DID_PRESENTER_ID
    let vb := avatar_result.success &&
      (match avatar_result.video_url with | some u => !(u == "") | none => false)
    let video_url := if (avatar_mode == .VIDEO) && vb then avatar_result.video_url else none
    let latency_ms : Option ℚ :=
      if (avatar_mode == .VIDEO) && vb then some avatar_result.total_time_ms else none
    let actual_avatar_mode :=
      if (avatar_mode == .VIDEO) && !vb then AvatarMode.AUDIO_ONLY else avatar_mode
    let fallback_image : Option String :=
      if actual_avatar_mode == .AUDIO_ONLY then some DID_PRESENTER_IMAGE else none
    .ok ([("type", .jstr "question"),
      ("question_id", .jint question.id),
      ("question_text", .jstr question.text),
      ("question_type", .jstr (question_type_value question.type)),
      ("avatar_mode", .jstr (avatar_mode_value actual_avatar_mode)),
      ("video_url", jopt_str video_url),
      ("idle_video_url", jopt_str idle_video_url),
      ("audio_base64", .jint tts_result.audio_len),
      ("audio_duration", .jrat tts_result.duration),
      ("avatar_image_url", jopt_str fallback_image),
      ("current_question", .jint prog.1),
      ("total_questions", .jint prog.2),
      ("latency_ms", match latency_ms with | some v => .jrat v | none => .jnull)]
      ++ (if include_word_timings then
            [("word_timings",
              if actual_avatar_mode == .AUDIO_ONLY then
                word_timings_json tts_result.word_timings
              else .jarr [])]
          else []))

/-- External-call outcomes consumed by `get_next_question_http`. -/
structure QuestionRouteEnv where
  now : String
  q_resp : QuestionApiOutcome
  tts : Except Unit (ℚ × ℕ)
  idle_cache : List (String × String)
  avatar_result : AvatarResult

/-- `GET /interview/{session_id}/question` (`get_next_question_http`):
404 for an unknown session; otherwise fetches the next question from the
question service (advancing its per-session progress), stores it as the
session's current question, sets the session to `WAITING_FOR_ANSWER`, and
assembles the response without word timings. -/
def get_next_question_http (m : SessionStore) (q : QuestionServiceState)
    (avatar : AvatarServiceModel) (session_id : String) (env : QuestionRouteEnv) :
    Except HttpError (List (String × JVal)) × SessionStore × QuestionServiceState :=
  match get_session m session_id with
  | none => (.error (.notFound "Session not found"), m, q)
  | some _ =>
    if qs_is_interview_complete q session_id then
      let r := get_interview_complete_response m session_id env.now
      (.ok r.1, r.2, q)
    else
      match qs_get_next_question q session_id env.q_resp with
      | (.error e, q1) => (.error (.internal e), m, q1)
      | (.ok none, q1) =>
        let r := get_interview_complete_response m session_id env.now
        (.ok r.1, r.2, q1)
      | (.ok (some question), q1) =>
        let r1 := set_current_question m session_id question.id env.now
        let r2 := update_session_state r1.2 session_id .WAITING_FOR_ANSWER env.now
        let avatar_mode :=
          if is_configured avatar then AvatarMode.VIDEO else AvatarMode.AUDIO_ONLY
        match generate_question_response q1 session_id avatar_mode question false
            env.tts env.idle_cache env.avatar_result with
        | .error e => (.error e, r2.2, q1)
        | .ok resp => (.ok resp, r2.2, q1)

/-- External-call outcomes consumed by `submit_answer_http`. -/
structure AnswerRouteEnv where
  now : String
  submit_ok : Bool
  q_resp : QuestionApiOutcome
  tts : Except Unit (ℚ × ℕ)
  idle_cache : List (String × String)
  avatar_result : AvatarResult

/-- `POST /interview/{session_id}/answer` (`submit_answer_http`): 404 for an
unknown session, 400 without a question id, 500 when the remote submit fails
(registry untouched); otherwise records the answer, sets `PROCESSING`, fetches
the next question (propagating its errors), stores it with
`WAITING_FOR_ANSWER`, and assembles the response without word timings. -/
def submit_answer_http (m : SessionStore) (q : QuestionServiceState)
    (avatar : AvatarServiceModel) (session_id : String)
    (question_id : Option ℤ) (answer_text : String) (env : AnswerRouteEnv) :
    Except HttpError (List (String × JVal)) × SessionStore × QuestionServiceState :=
  match get_session m session_id with
  | none => (.error (.notFound "Session not found"), m, q)
  | some _ =>
    match question_id with
    | none => (.error (.badRequest "question_id is required"), m, q)
    | some qid =>
      if !env.submit_ok then
        (.error (.internal "Failed to submit answer to question service"), m, q)
      else
        let r1 := record_answer m session_id qid answer_text env.now
        let r2 := update_session_state r1.2 session_id .PROCESSING env.now
        if qs_is_interview_complete q session_id then
          let r := get_interview_complete_response r2.2 session_id env.now
          (.ok r.1, r.2, q)
        else
          match qs_get_next_question q session_id env.q_resp with
          | (.error e, q1) => (.error (.internal e), r2.2, q1)
          | (.ok none, q1) =>
            let r := get_interview_complete_response r2.2 session_id env.now
            (.ok r.1, r.2, q1)
          | (.ok (some question), q1) =>
            let r3 := set_current_question r2.2 session_id question.id env.now
            let r4 := update_session_state r3.2 session_id .WAITING_FOR_ANSWER env.now
            let avatar_mode :=
              if is_configured avatar then AvatarMode.VIDEO else AvatarMode.AUDIO_ONLY
            match generate_question_response q1 session_id avatar_mode question false
                env.tts env.idle_cache env.avatar_result with
            | .error e => (.error e, r4.2, q1)
            | .ok resp => (.ok resp, r4.2, q1)

/-- A `video_generation_cache` entry (timestamps omitted: no claim reads
`started_at`/`completed_at` beyond the status transitions). -/
structure VideoJobEntry where
  status : String
  session_id : String
  question_id : ℤ
  video_url : Option String := none
  error : Option String := none
  deriving DecidableEq, Repr

/-- External-call outcomes consumed by `start_interview`. -/
structure StartRouteEnv where
  new_session_id : String
  now : String
  user_id : String
  start_resp : StartApiOutcome
  q_resp : QuestionApiOutcome
  tts : Except Unit (ℚ × ℕ)
  idle_cache : List (String × String)
  generation_id : String

/-- `POST /interview/start` (`start_interview`): creates a session, starts it
with the remote question source, transitions `IN_PROGRESS`, fetches the first
question, stores it with `WAITING_FOR_ANSWER`, synthesizes audio, and returns
the combined payload. When the Avatar Video Client is unconfigured no video
job is registered and `video_status = "disabled"`. The source builds the
response dict with its `word_timings` entry commented out, so the response
carries no `word_timings` key in either mode. -/
def start_interview (m : SessionStore) (q : QuestionServiceState)
    (avatar : AvatarServiceModel) (vcache : List (String × VideoJobEntry))
    (env : StartRouteEnv) :
    Except HttpError (List (String × JVal)) × SessionStore × QuestionServiceState
      × List (String × VideoJobEntry) :=
  let r0 := create_session m env.new_session_id env.now
  let session := r0.1
  let m1 := r0.2
  match qs_start_session q session.session_id env.user_id env.start_resp with
  | .error e => (.error (.internal ("Failed to start interview: " ++ e)), m1, q, vcache)
  | .ok (_info, q1) =>
    let r1 := update_session_state m1 session.session_id .IN_PROGRESS env.now
    match qs_get_next_question q1 session.session_id env.q_resp with
    | (.error e, q2) => (.error (.internal e), r1.2, q2, vcache)
    | (.ok none, q2) => (.error (.internal "Failed to get first question"), r1.2, q2, vcache)
    | (.ok (some question), q2) =>
      let r2 := set_current_question r1.2 session.session_id question.id env.now
      let r3 := update_session_state r2.2 session.session_id .WAITING_FOR_ANSWER env.now
      match env.tts with
      | .error _ => (.error (.internal "speech synthesis failed"), r3.2, q2, vcache)
      | .ok (sd, al) =>
        let tts_result := generate_speech question.text.data sd al
        let prog := qs_get_progress q2 session.session_id
        let idle_video_url := get_cached_idle_video env.idle_cache DID_PRESENTER_ID
        let should_generate_video := is_configured avatar
        let vcache2 :=
          if should_generate_video then
            dictSet vcache env.generation_id
              ⟨"pending", session.session_id, question.id, none, none⟩
          else vcache
        let video_status := if should_generate_video then "generating" else "disabled"
        (.ok [("session_id", .jstr session.session_id),
          ("state", .jstr "in_progress"),
          ("type", .jstr "question"),
          ("generation_id",
            if should_generate_video then .jstr env.generation_id else .jnull),
          ("video_status", .jstr video_status),
          ("question_id", .jint question.id),
          ("question_text", .jstr question.text),
          ("question_type", .jstr (question_type_value question.type)),
          ("avatar_mode",
            .jstr (if should_generate_video then "video" else "audio_only")),
          ("video_url", .jnull),
          ("idle_video_url", jopt_str idle_video_url),
          ("audio_base64", .jint tts_result.audio_len),
          ("audio_duration", .jrat tts_result.duration),
          ("avatar_image_url", .jstr DID_PRESENTER_IMAGE),
          ("current_question", .jint prog.1),
          ("total_questions", .jint prog.2)],
         r3.2, q2, vcache2)

/-! ### Video Generation Tracker (`generate_video_background` / `get_video_status`) -/

/-- Job lifecycle statuses of the video generation cache. -/
inductive VideoStatus
  | pending
  | processing
  | completed
  | failed
  deriving DecidableEq, Repr

/-- Progress rank of a status along `pending → processing → {completed, failed}`. -/
def video_status_rank : VideoStatus → ℕ
  | .pending => 0
  | .processing => 1
  | .completed => 2
  | .failed => 2

/-- The sequence of `status` values written to one job's cache entry:
`"pending"` at creation; then `generate_video_background` writes
`"processing"`, and finally exactly one terminal value — `"completed"` when
the avatar call succeeds with a video URL, otherwise `"failed"` (also when an
exception is caught). `ok` abstracts the avatar call outcome. -/
def video_job_history (ok : Bool) : List VideoStatus :=
  [.pending, .processing, if ok then .completed else .failed]

/-- The status a poller of `get_video_status` observes after `t` writes have
been applied to the cache entry (the writes of one background task are
sequential, and each poll reads the current value). -/
def video_status_at (ok : Bool) (t : ℕ) : VideoStatus :=
  (video_job_history ok).getD (min t 2) .pending

/-! ### Projections used to state facts about route results -/

/-- The string value of a response field, when present. -/
def resp_get_str (resp : List (String × JVal)) (k : String) : Option String :=
  match dictGet resp k with
  | some (.jstr v) => some v
  | _ => none

/-- The integer value of a response field, when present. -/
def resp_get_int (resp : List (String × JVal)) (k : String) : Option ℤ :=
  match dictGet resp k with
  | some (.jint v) => some v
  | _ => none

/-- The `HTTPException` of a route result, when it is an error. -/
def route_error (r : Except HttpError (List (String × JVal))) : Option HttpError :=
  match r with
  | .error e => some e
  | .ok _ => none

/-- Whether a JSON value is `null`. -/
def jval_is_null : JVal → Bool
  | .jnull => true
  | _ => false

/-! ### Claim C7 — missing-session no-ops -/

/-- C7: for a session id absent from the registry, every mutating registry
operation returns `none` (and `delete_session` returns `false`) and leaves the
session map unchanged (the operations are total, so nothing is raised), and
`submit_answer_http` for such an id returns 404 `NotFound` leaving both the
registry and the question-service state untouched. -/
theorem C7_missing_session_noops (m : SessionStore) (sid : String)
    (st : SessionState) (qid : ℤ) (txt now : String)
    (q : QuestionServiceState) (avatar : AvatarServiceModel) (env : AnswerRouteEnv)
    (h : dictGet m sid = none) :
    update_session_state m sid st now = (none, m) ∧
    set_current_question m sid qid now = (none, m) ∧
    record_answer m sid qid txt now = (none, m) ∧
    complete_session m sid now = (none, m) ∧
    delete_session m sid = (false, m) ∧
    submit_answer_http m q avatar sid (some qid) txt env =
      (.error (.notFound "Session not found"), m, q) := by
  refine ⟨?_, ?_, ?_, ?_, ?_, ?_⟩ <;>
    simp [update_session_state, set_current_question, record_answer,
      complete_session, delete_session, submit_answer_http, get_session, h]

/-- A session fixture for concrete instantiations. -/
def fixture_session : InterviewSession :=
  ⟨"a", .WAITING_FOR_ANSWER, "t0", 3, [⟨1, "first answer", "t0"⟩], "t0"⟩

/-- A one-session registry fixture. -/
def fixture_store : SessionStore := [("a", fixture_session)]

/-- A question-service state fixture tracking session `"a"`. -/
def fixture_qstate : QuestionServiceState :=
  ⟨[("a", ⟨7, "active", some "u1"⟩)], [("a", 3)]⟩

/-- An answer-route environment fixture in which every external call succeeds. -/
def fixture_answer_env : AnswerRouteEnv :=
  ⟨"t1", true, .success 4 "Tell me about yourself." 4 true, .ok (1, 16000), [],
    ⟨false, none, none, 0⟩⟩

theorem C7_missing_session_noops_witness :
    dictGet fixture_store "b" = none ∧
    (update_session_state fixture_store "b" .PROCESSING "t1" = (none, fixture_store) ∧
     set_current_question fixture_store "b" 2 "t1" = (none, fixture_store) ∧
     record_answer fixture_store "b" 2 "hi" "t1" = (none, fixture_store) ∧
     complete_session fixture_store "b" "t1" = (none, fixture_store) ∧
     delete_session fixture_store "b" = (false, fixture_store) ∧
     submit_answer_http fixture_store fixture_qstate ⟨none⟩ "b" (some 2) "hi"
        fixture_answer_env =
      (.error (.notFound "Session not found"), fixture_store, fixture_qstate)) :=
  ⟨by decide,
   C7_missing_session_noops fixture_store "b" .PROCESSING 2 "hi" "t1"
     fixture_qstate ⟨none⟩ fixture_answer_env (by decide)⟩

/-! ### Claim C8 — video job status monotonicity -/

/-- C8: along a video generation job's write history the statuses progress
`pending → processing → {completed, failed}`, each transition exactly once
(strictly increasing rank, no status repeated); a poller sampling the entry at
non-decreasing times observes non-decreasing ranks, terminal statuses are
never followed by anything else, and `completed` is never followed by
`processing`. -/
theorem C8_video_job_status_monotone (ok : Bool) (t1 t2 : ℕ) (h : t1 ≤ t2) :
    video_status_rank (video_status_at ok t1) ≤
      video_status_rank (video_status_at ok t2) ∧
    (video_status_rank (video_status_at ok t1) = 2 →
      video_status_at ok t2 = video_status_at ok t1) ∧
    ¬ (video_status_at ok t1 = .completed ∧ video_status_at ok t2 = .processing) ∧
    List.Chain' (fun a b => video_status_rank a < video_status_rank b)
      (video_job_history ok) ∧
    (video_job_history ok).Nodup := by
  have key : ∀ u1 u2 : ℕ, u1 ≤ 2 → u2 ≤ 2 → u1 ≤ u2 →
      video_status_rank ((video_job_history ok).getD u1 .pending) ≤
        video_status_rank ((video_job_history ok).getD u2 .pending) ∧
      (video_status_rank ((video_job_history ok).getD u1 .pending) = 2 →
        (video_job_history ok).getD u2 .pending
          = (video_job_history ok).getD u1 .pending) ∧
      ¬ ((video_job_history ok).getD u1 .pending = .completed ∧
          (video_job_history ok).getD u2 .pending = .processing) := by
    intro u1 u2 h1 h2 h12
    interval_cases u1 <;> interval_cases u2 <;> first | omega | (cases ok <;> decide)
  have k := key (min t1 2) (min t2 2) (by omega) (by omega) (by omega)
  refine ⟨k.1, k.2.1, k.2.2, ?_, by cases ok <;> decide⟩
  cases ok <;>
    simp [video_job_history, List.chain'_cons, List.chain'_singleton, video_status_rank]

theorem C8_video_job_status_monotone_witness :
    (1 : ℕ) ≤ 2 ∧
    (video_status_rank (video_status_at true 1) ≤
      video_status_rank (video_status_at true 2) ∧
    (video_status_rank (video_status_at true 1) = 2 →
      video_status_at true 2 = video_status_at true 1) ∧
    ¬ (video_status_at true 1 = .completed ∧ video_status_at true 2 = .processing) ∧
    List.Chain' (fun a b => video_status_rank a < video_status_rank b)
      (video_job_history true) ∧
    (video_job_history true).Nodup) :=
  ⟨by norm_num, C8_video_job_status_monotone true 1 2 (by norm_num)⟩

/-! ### Claim C2 — get_next_question advances state -/

/-- C2 (as frozen) is refuted: `get_next_question` is not an idempotent
re-fetch. On a concrete started session the HTTP route changes the lifecycle
state from `IN_PROGRESS` to `WAITING_FOR_ANSWER`, the current question id from
`0` to `1`, and the question service's per-session progress from `0` to `1`;
and two successive calls of the mock service's `get_next_question` return
distinct questions (ids 1 then 2). -/
theorem C2_counterexample_not_idempotent :
    ((get_session [("s", (⟨"s", .IN_PROGRESS, "t0", 0, [], "t0"⟩ : InterviewSession))]
        "s").map (fun s => (s.state, s.current_question_id))
      = some (.IN_PROGRESS, 0) ∧
     (get_session (get_next_question_http
          [("s", ⟨"s", .IN_PROGRESS, "t0", 0, [], "t0"⟩)]
          ⟨[("s", ⟨7, "active", some "u"⟩)], [("s", 0)]⟩ ⟨none⟩ "s"
          ⟨"t1", .success 1 "Tell me about yourself." 1 true, .ok (1, 16000), [],
            ⟨false, none, none, 0⟩⟩).2.1 "s").map
        (fun s => (s.state, s.current_question_id))
      = some (.WAITING_FOR_ANSWER, 1) ∧
     dictGet (get_next_question_http
          [("s", ⟨"s", .IN_PROGRESS, "t0", 0, [], "t0"⟩)]
          ⟨[("s", ⟨7, "active", some "u"⟩)], [("s", 0)]⟩ ⟨none⟩ "s"
          ⟨"t1", .success 1 "Tell me about yourself." 1 true, .ok (1, 16000), [],
            ⟨false, none, none, 0⟩⟩).2.2.questions_asked "s" = some 1) ∧
    ((mock_get_next_question (mock_start_session mock_init "s") "s").1.map
        InterviewQuestion.id = some 1 ∧
     (mock_get_next_question
        (mock_get_next_question (mock_start_session mock_init "s") "s").2 "s").1.map
        InterviewQuestion.id = some 2 ∧
     (mock_get_next_question (mock_start_session mock_init "s") "s").1 ≠
       (mock_get_next_question
          (mock_get_next_question (mock_start_session mock_init "s") "s").2 "s").1) := by
  with_unfolding_all decide

/-- C2 (amended): `get_next_question` fetches and *advances*. Over HTTP, a
successful call on an existing, tracked session returns the freshly fetched
question, sets the session's current question id to it, moves the lifecycle
state to `WAITING_FOR_ANSWER`, and records the remote `questions_asked` count
as the session's progress. The mock service returns the question at the
current per-session index and increments that index, so successive calls
return consecutive questions rather than re-fetching the current one. -/
theorem C2_get_next_question_advances :
    (∀ (m : SessionStore) (q : QuestionServiceState) (avatar : AvatarServiceModel)
      (sid : String) (s : InterviewSession) (info : InterviewSessionInfo)
      (now qtext : String) (qid : ℤ) (asked : ℕ) (first : Bool) (sd : ℚ) (al : ℕ)
      (icache : List (String × String)) (ares : AvatarResult),
      dictGet m sid = some s →
      dictGet q.session_info sid = some info →
      (get_next_question_http m q avatar sid
          ⟨now, .success qid qtext asked first, .ok (sd, al), icache, ares⟩).1.map
        (fun resp => resp_get_int resp "question_id") = .ok (some qid) ∧
      get_session (get_next_question_http m q avatar sid
          ⟨now, .success qid qtext asked first, .ok (sd, al), icache, ares⟩).2.1 sid =
        some { s with state := .WAITING_FOR_ANSWER, current_question_id := qid,
                      updated_at := now } ∧
      dictGet (get_next_question_http m q avatar sid
          ⟨now, .success qid qtext asked first, .ok (sd, al), icache,
            ares⟩).2.2.questions_asked sid = some asked) ∧
    (∀ (st : MockQuestionServiceState) (sid : String) (i : ℕ),
      dictGet st.current_question_index sid = some i →
      i < st.questions.length →
      (mock_get_next_question st sid).1 = st.questions.get? i ∧
      dictGet (mock_get_next_question st sid).2.current_question_index sid
        = some (i + 1)) := by
  constructor
  · intro m q avatar sid s info now qtext qid asked first sd al icache ares hs hinfo
    refine ⟨?_, ?_, ?_⟩ <;>
      simp [get_next_question_http, get_session, hs, qs_is_interview_complete,
        qs_get_next_question, get_real_session_id, hinfo, set_current_question,
        update_session_state, dictGet_dictSet_self, generate_question_response,
        resp_get_int, dictGet, Except.map]
  · intro st sid i hi hlt
    unfold mock_get_next_question
    simp [hi, Nat.not_le.mpr hlt, dictGet_dictSet_self]

theorem C2_get_next_question_advances_witness :
    dictGet ([("s", (⟨"s", .IN_PROGRESS, "t0", 0, [], "t0"⟩ : InterviewSession))]) "s"
      = some ⟨"s", .IN_PROGRESS, "t0", 0, [], "t0"⟩ ∧
    dictGet (⟨[("s", ⟨7, "active", some "u"⟩)], [("s", 0)]⟩ :
        QuestionServiceState).session_info "s" = some ⟨7, "active", some "u"⟩ ∧
    dictGet (mock_start_session mock_init "s").current_question_index "s" = some 0 ∧
    0 < (mock_start_session mock_init "s").questions.length ∧
    ((get_next_question_http [("s", ⟨"s", .IN_PROGRESS, "t0", 0, [], "t0"⟩)]
          ⟨[("s", ⟨7, "active", some "u"⟩)], [("s", 0)]⟩ ⟨none⟩ "s"
          ⟨"t1", .success 1 "Tell me about yourself." 1 true, .ok (1, 16000), [],
            ⟨false, none, none, 0⟩⟩).1.map
        (fun resp => resp_get_int resp "question_id") = .ok (some 1)) ∧
    ((mock_get_next_question (mock_start_session mock_init "s") "s").1
      = (mock_start_session mock_init "s").questions.get? 0) :=
  ⟨by decide, by decide, by decide, by decide,
   (C2_get_next_question_advances.1
      [("s", ⟨"s", .IN_PROGRESS, "t0", 0, [], "t0"⟩)]
      ⟨[("s", ⟨7, "active", some "u"⟩)], [("s", 0)]⟩ ⟨none⟩ "s"
      ⟨"s", .IN_PROGRESS, "t0", 0, [], "t0"⟩ ⟨7, "active", some "u"⟩ "t1"
      "Tell me about yourself." 1 1 true 1 16000 [] ⟨false, none, none, 0⟩
      (by decide) (by decide)).1,
   (C2_get_next_question_advances.2 (mock_start_session mock_init "s") "s" 0
      (by decide) (by decide)).1⟩

/-! ### Claim C3 — failure handling on the answer-submission path -/

/-- C3 (as frozen) is refuted: when the remote submit succeeds but the
next-question retrieval then raises, the request aborts with an error — yet
the registry is *not* unchanged: the answer was already recorded and the
session moved to `PROCESSING` (the code deliberately persists the answer
before fetching the next question). -/
theorem C3_counterexample_partial_state :
    route_error (submit_answer_http
        [("s", (⟨"s", .WAITING_FOR_ANSWER, "t0", 1, [], "t0"⟩ : InterviewSession))]
        ⟨[("s", ⟨7, "active", some "u"⟩)], [("s", 1)]⟩ ⟨none⟩ "s" (some 1) "my answer"
        ⟨"t1", true, .apiError "boom", .ok (1, 16000), [], ⟨false, none, none, 0⟩⟩).1
      = some (.internal "boom") ∧
    (submit_answer_http
        [("s", ⟨"s", .WAITING_FOR_ANSWER, "t0", 1, [], "t0"⟩)]
        ⟨[("s", ⟨7, "active", some "u"⟩)], [("s", 1)]⟩ ⟨none⟩ "s" (some 1) "my answer"
        ⟨"t1", true, .apiError "boom", .ok (1, 16000), [], ⟨false, none, none, 0⟩⟩).2.1
      ≠ [("s", ⟨"s", .WAITING_FOR_ANSWER, "t0", 1, [], "t0"⟩)] ∧
    (get_session (submit_answer_http
        [("s", ⟨"s", .WAITING_FOR_ANSWER, "t0", 1, [], "t0"⟩)]
        ⟨[("s", ⟨7, "active", some "u"⟩)], [("s", 1)]⟩ ⟨none⟩ "s" (some 1) "my answer"
        ⟨"t1", true, .apiError "boom", .ok (1, 16000), [], ⟨false, none, none, 0⟩⟩).2.1
        "s").map (fun s => (s.state, s.answers.length))
      = some (.PROCESSING, 1) := by
  with_unfolding_all decide

/-- C3 (amended): errors on the synchronous path abort the request, but only
the steps *before* the failing call are rolled forward, never back. If the
remote submit fails, the registry and question service are untouched. If the
submit succeeds and next-question retrieval raises, the recorded answer and
the `PROCESSING` transition persist (answer-before-fetch ordering) while the
question-service state is unchanged. If speech synthesis fails after a
question was retrieved, the recorded answer, the new current question id and
the `WAITING_FOR_ANSWER` state persist, along with the updated progress. -/
theorem C3_failure_persists_prior_writes :
    (∀ (m : SessionStore) (q : QuestionServiceState) (avatar : AvatarServiceModel)
      (sid : String) (s : InterviewSession) (qid : ℤ) (txt : String)
      (env : AnswerRouteEnv),
      dictGet m sid = some s → env.submit_ok = false →
      submit_answer_http m q avatar sid (some qid) txt env =
        (.error (.internal "Failed to submit answer to question service"), m, q)) ∧
    (∀ (m : SessionStore) (q : QuestionServiceState) (avatar : AvatarServiceModel)
      (sid : String) (s : InterviewSession) (info : InterviewSessionInfo)
      (qid : ℤ) (txt now e : String) (tts : Except Unit (ℚ × ℕ))
      (icache : List (String × String)) (ares : AvatarResult),
      dictGet m sid = some s →
      dictGet q.session_info sid = some info →
      route_error (submit_answer_http m q avatar sid (some qid) txt
          ⟨now, true, .apiError e, tts, icache, ares⟩).1 = some (.internal e) ∧
      get_session (submit_answer_http m q avatar sid (some qid) txt
          ⟨now, true, .apiError e, tts, icache, ares⟩).2.1 sid =
        some { s with
          state := .PROCESSING,
          answers := s.answers ++ [⟨qid, txt, now⟩],
          updated_at := now } ∧
      (submit_answer_http m q avatar sid (some qid) txt
          ⟨now, true, .apiError e, tts, icache, ares⟩).2.2 = q) ∧
    (∀ (m : SessionStore) (q : QuestionServiceState) (avatar : AvatarServiceModel)
      (sid : String) (s : InterviewSession) (info : InterviewSessionInfo)
      (qid : ℤ) (txt now qtext : String) (qid2 : ℤ) (asked : ℕ) (first : Bool)
      (icache : List (String × String)) (ares : AvatarResult),
      dictGet m sid = some s →
      dictGet q.session_info sid = some info →
      route_error (submit_answer_http m q avatar sid (some qid) txt
          ⟨now, true, .success qid2 qtext asked first, .error (), icache, ares⟩).1
        = some (.internal "speech synthesis failed") ∧
      get_session (submit_answer_http m q avatar sid (some qid) txt
          ⟨now, true, .success qid2 qtext asked first, .error (), icache, ares⟩).2.1
          sid =
        some { s with
          state := .WAITING_FOR_ANSWER,
          current_question_id := qid2,
          answers := s.answers ++ [⟨qid, txt, now⟩],
          updated_at := now } ∧
      (submit_answer_http m q avatar sid (some qid) txt
          ⟨now, true, .success qid2 qtext asked first, .error (), icache, ares⟩).2.2
        = { q with questions_asked := dictSet q.questions_asked sid asked }) := by
  refine ⟨?_, ?_, ?_⟩
  · intro m q avatar sid s qid txt env hs hsub
    obtain ⟨now, submit_ok, q_resp, tts, icache, ares⟩ := env
    simp only at hsub
    subst hsub
    simp [submit_answer_http, get_session, hs]
  · intro m q avatar sid s info qid txt now e tts icache ares hs hinfo
    refine ⟨?_, ?_, ?_⟩ <;>
      simp [submit_answer_http, get_session, hs, qs_is_interview_complete,
        record_answer, update_session_state, dictGet_dictSet_self,
        qs_get_next_question, get_real_session_id, hinfo, route_error]
  · intro m q avatar sid s info qid txt now qtext qid2 asked first icache ares hs hinfo
    refine ⟨?_, ?_, ?_⟩ <;>
      simp [submit_answer_http, get_session, hs, qs_is_interview_complete,
        record_answer, update_session_state, set_current_question,
        dictGet_dictSet_self, qs_get_next_question, get_real_session_id, hinfo,
        generate_question_response, route_error]

theorem C3_failure_persists_prior_writes_witness :
    dictGet fixture_store "a" = some fixture_session ∧
    dictGet fixture_qstate.session_info "a" = some ⟨7, "active", some "u1"⟩ ∧
    (⟨"t1", false, .apiError "x", .ok (1, 1), [], ⟨false, none, none, 0⟩⟩ :
      AnswerRouteEnv).submit_ok = false ∧
    (submit_answer_http fixture_store fixture_qstate ⟨none⟩ "a" (some 2) "hi"
        ⟨"t1", false, .apiError "x", .ok (1, 1), [], ⟨false, none, none, 0⟩⟩ =
      (.error (.internal "Failed to submit answer to question service"),
        fixture_store, fixture_qstate)) ∧
    (route_error (submit_answer_http fixture_store fixture_qstate ⟨none⟩ "a"
        (some 2) "hi" ⟨"t1", true, .apiError "boom", .ok (1, 1), [],
          ⟨false, none, none, 0⟩⟩).1 = some (.internal "boom")) ∧
    (route_error (submit_answer_http fixture_store fixture_qstate ⟨none⟩ "a"
        (some 2) "hi" ⟨"t1", true, .success 5 "Why?" 5 false, .error (), [],
          ⟨false, none, none, 0⟩⟩).1 = some (.internal "speech synthesis failed")) :=
  ⟨by decide, by decide, by decide,
   C3_failure_persists_prior_writes.1 fixture_store fixture_qstate ⟨none⟩ "a"
     fixture_session 2 "hi"
     ⟨"t1", false, .apiError "x", .ok (1, 1), [], ⟨false, none, none, 0⟩⟩
     (by decide) (by decide),
   (C3_failure_persists_prior_writes.2.1 fixture_store fixture_qstate ⟨none⟩ "a"
     fixture_session ⟨7, "active", some "u1"⟩ 2 "hi" "t1" "boom" (.ok (1, 1)) []
     ⟨false, none, none, 0⟩ (by decide) (by decide)).1,
   (C3_failure_persists_prior_writes.2.2 fixture_store fixture_qstate ⟨none⟩ "a"
     fixture_session ⟨7, "active", some "u1"⟩ 2 "hi" "t1" "Why?" 5 5 false []
     ⟨false, none, none, 0⟩ (by decide) (by decide)).1⟩

/-! ### Claim C4 — start() response when the avatar client is unconfigured -/

/-- C4 (as frozen) is refuted: on a fully successful `start()` with the
Avatar Video Client unconfigured, the response has a `question_id`, an audio
payload and `video_status = "disabled"` — but *no* `word_timings` field at
all (the source builds the response dict with `word_timings` commented out),
contradicting the claimed non-empty word-timing sequence. -/
theorem C4_counterexample_no_word_timings :
    is_configured ⟨none⟩ = false ∧
    ((start_interview [] ⟨[], []⟩ ⟨none⟩ []
        ⟨"s9", "t0", "u", .ok 7 "active", .success 1 "Tell me about yourself." 1 true,
          .ok (1, 16000), [], "gen_abc"⟩).1.toOption.map
      (fun resp => ((dictGet resp "question_id").isSome,
        (dictGet resp "audio_base64").isSome,
        resp_get_str resp "video_status",
        (dictGet resp "word_timings").isNone)))
      = some (true, true, some "disabled", true) := by
  with_unfolding_all decide

/-- C4 (amended): when the Avatar Video Client is unconfigured, a fully
successful `start()` responds with the first question's id, the audio payload
and its duration, `video_status = "disabled"`, `avatar_mode = "audio_only"`,
a null generation id, and registers no video job — but the response contains
no `word_timings` field (the word-timings entry is commented out in the
response assembly). -/
theorem C4_start_unconfigured_response (m : SessionStore)
    (q : QuestionServiceState) (avatar : AvatarServiceModel)
    (vcache : List (String × VideoJobEntry)) (new_sid now user : String)
    (rid : ℤ) (status : String) (qid : ℤ) (qtext : String) (asked : ℕ)
    (first : Bool) (sd : ℚ) (al : ℕ) (icache : List (String × String))
    (genid : String)
    (hconf : is_configured avatar = false) :
    (start_interview m q avatar vcache
        ⟨new_sid, now, user, .ok rid status, .success qid qtext asked first,
          .ok (sd, al), icache, genid⟩).1.map
      (fun resp => (resp_get_int resp "question_id",
        (dictGet resp "audio_base64").isSome,
        resp_get_str resp "video_status",
        resp_get_str resp "avatar_mode",
        (dictGet resp "generation_id").map jval_is_null,
        (dictGet resp "word_timings").isNone))
      = .ok (some qid, true, some "disabled", some "audio_only", some true, true) ∧
    (start_interview m q avatar vcache
        ⟨new_sid, now, user, .ok rid status, .success qid qtext asked first,
          .ok (sd, al), icache, genid⟩).2.2.2 = vcache := by
  constructor <;>
    simp [start_interview, create_session, qs_start_session, update_session_state,
      set_current_question, dictGet_dictSet_self, qs_get_next_question,
      get_real_session_id, hconf, resp_get_int, resp_get_str, jval_is_null,
      dictGet, Except.map]

theorem C4_start_unconfigured_response_witness :
    is_configured ⟨none⟩ = false ∧
    ((start_interview [] ⟨[], []⟩ ⟨none⟩ []
        ⟨"s9", "t0", "u", .ok 7 "active", .success 1 "Tell me about yourself." 1 true,
          .ok (1, 16000), [], "gen_abc"⟩).1.map
      (fun resp => (resp_get_int resp "question_id",
        (dictGet resp "audio_base64").isSome,
        resp_get_str resp "video_status",
        resp_get_str resp "avatar_mode",
        (dictGet resp "generation_id").map jval_is_null,
        (dictGet resp "word_timings").isNone))
      = .ok (some 1, true, some "disabled", some "audio_only", some true, true) ∧
    (start_interview [] ⟨[], []⟩ ⟨none⟩ []
        ⟨"s9", "t0", "u", .ok 7 "active", .success 1 "Tell me about yourself." 1 true,
          .ok (1, 16000), [], "gen_abc"⟩).2.2.2 = []) :=
  ⟨by decide,
   C4_start_unconfigured_response [] ⟨[], []⟩ ⟨none⟩ [] "s9" "t0" "u" 7 "active"
     1 "Tell me about yourself." 1 true 1 16000 [] "gen_abc" (by decide)⟩

end IntBackend
